import Mathlib

/-!
Verification of the a2a-go task manager, event multiplexer and push
notification authentication against the repository's specification.

The Go source is shallowly embedded: each Go method becomes a pure Lean
function, with the mutable receiver state (`tasks` map, SSE subscriber
registry) passed and returned explicitly.  Go maps are modelled as
association lists; Go channels are modelled by the list of values sent
into them, in order; wall-clock time becomes an explicit `Int` parameter
(Unix seconds); SHA-256 over a JSON encoding is an abstract function
parameter `digest`.
-/

namespace A2AGo

/-! ## Data model (pkg/types) -/

/-- Go enum `TaskState` from pkg/types. -/
inductive TaskState where
  | submitted
  | working
  | inputRequired
  | completed
  | canceled
  | failed
  | unknown
deriving DecidableEq, Repr

/-- Go struct `Message`.  The Go field `Parts []any` (a union of
TextPart/FilePart/DataPart) is collapsed to a list of opaque strings: no
operation verified here inspects a part's contents.  `Metadata` is omitted
for the same reason. -/
structure Message where
  role : String
  parts : List String
deriving DecidableEq, Repr

/-- Go struct `TaskStatus`: state, optional message, RFC3339 timestamp. -/
structure TaskStatus where
  state : TaskState
  message : Option Message
  timestamp : String
deriving DecidableEq, Repr

/-- Go struct `Artifact`.  `Parts` is collapsed to opaque strings as in
`Message`; `Metadata` is omitted. -/
structure Artifact where
  name : Option String
  description : Option String
  parts : List String
  index : Int
  append : Option Bool
  lastChunk : Option Bool
deriving DecidableEq, Repr

/-- Go struct `Task`.  `Artifacts []Artifact` is `Option (List Artifact)`
because `updateStore` distinguishes a nil slice from an empty one.
`Metadata` is omitted (never read by the embedded operations). -/
structure Task where
  id : String
  sessionId : Option String
  status : TaskStatus
  artifacts : Option (List Artifact)
  history : List Message
deriving DecidableEq, Repr

/-- Go struct `TaskIdParams` (`Metadata` omitted, never read). -/
structure TaskIdParams where
  id : String
deriving DecidableEq, Repr

/-- Go struct `TaskQueryParams`: embeds `TaskIdParams` plus the optional
`HistoryLength *int`, flattened here. -/
structure TaskQueryParams where
  id : String
  historyLength : Option Int
deriving DecidableEq, Repr

/-- Go struct `TaskSendParams`, restricted to the fields `upsertTask`
reads: `ID`, `SessionID`, `Message`. -/
structure TaskSendParams where
  id : String
  sessionId : String
  message : Message
deriving DecidableEq, Repr

/-! ## Task store (InMemoryTaskManager, server package)

The Go field `tasks map[string]*types.Task` is an association list keyed
by task id; `lookupTask` is Go map read, `setTask` is Go map write
(replacing an existing binding in place). -/

/-- The `tasks` map of `InMemoryTaskManager`. -/
abbrev TaskStore := List (String × Task)

/-- Go map read `tm.tasks[id]` (nil pointer becomes `none`). -/
def lookupTask (s : TaskStore) (id : String) : Option Task :=
  match s.find? (fun kv => kv.1 = id) with
  | some kv => some kv.2
  | none => none

/-- Go map write `tm.tasks[id] = t`: replaces the first binding for `id`,
or adds one if absent. -/
def setTask (s : TaskStore) (id : String) (t : Task) : TaskStore :=
  match s with
  | [] => [(id, t)]
  | kv :: rest =>
      if kv.1 = id then (id, t) :: rest else kv :: setTask rest id t

/-- `InMemoryTaskManager.upsertTask`: creates the task (state
`submitted`, history `[message]`) if absent, else appends the message to
its history.  `now` is `time.Now().Format(time.RFC3339)`. -/
def upsertTask (s : TaskStore) (now : String) (p : TaskSendParams) :
    Task × TaskStore :=
  match lookupTask s p.id with
  | none =>
      let t : Task :=
        { id := p.id
          sessionId := some p.sessionId
          status := { state := .submitted, message := none, timestamp := now }
          artifacts := none
          history := [p.message] }
      (t, setTask s p.id t)
  | some t =>
      let t' := { t with history := t.history ++ [p.message] }
      (t', setTask s p.id t')

/-- `InMemoryTaskManager.updateStore`: on a missing task returns the
"task not found" error and leaves the store untouched; otherwise replaces
the status wholesale, appends `status.Message` to the history when
present, and appends `artifacts` (initialising a nil artifact slice). -/
def updateStore (s : TaskStore) (taskID : String) (status : TaskStatus)
    (artifacts : Option (List Artifact)) :
    Except String Task × TaskStore :=
  match lookupTask s taskID with
  | none => (.error "task not found", s)
  | some task =>
      let task := { task with status := status }
      let task :=
        match status.message with
        | some m => { task with history := task.history ++ [m] }
        | none => task
      let task :=
        match artifacts with
        | some arts =>
            { task with artifacts := some (task.artifacts.getD [] ++ arts) }
        | none => task
      (.ok task, setTask s taskID task)

/-- `InMemoryTaskManager.appendTaskHistory`: copies the task; with a
positive limit trims the history to its last `historyLength` entries,
otherwise (nil or non-positive limit) empties it. -/
def appendTaskHistory (task : Task) (historyLength : Option Int) : Task :=
  match historyLength with
  | some hl =>
      if 0 < hl then
        if hl < (task.history.length : Int) then
          { task with
              history := task.history.drop (task.history.length - hl.toNat) }
        else task
      else { task with history := [] }
  | none => { task with history := [] }

/-- `InMemoryTaskManager.OnGetTask`: reads the task under the lock and
returns an `appendTaskHistory` snapshot; the store itself is only read,
so it is returned unchanged. -/
def onGetTask (s : TaskStore) (p : TaskQueryParams) :
    Option Task × TaskStore :=
  match lookupTask s p.id with
  | none => (none, s)
  | some task => (some (appendTaskHistory task p.historyLength), s)

/-- `InMemoryTaskManager.OnCancelTask`: looks the task up, then returns a
nil `Result` in both the found and the not-found branch; the store is
never written. -/
def onCancelTask (s : TaskStore) (p : TaskIdParams) :
    Option Task × TaskStore :=
  match lookupTask s p.id with
  | none => (none, s)
  | some _ => (none, s)

/-! ## Push notification authentication (pkg/utils/in_memory_cache.go)

A notification payload is a JSON object map, modelled as an association
list of string fields.  `calculateRequestBodySHA256` (JSON-encode then
SHA-256) is an abstract function `digest : Payload → String`: both signer
and verifier invoke the same function, exactly as both Go sides call the
same `calculateRequestBodySHA256`.  An RSA keypair is identified by a
`Nat`; the ideal-signature model records in the token which keypair
signed it, and `jwt.Parse` against a trusted public key succeeds exactly
when that key's pair signed the token (RS256 is treated as unforgeable and
correct). -/

/-- A JSON object map (`map[string]interface{}`), values collapsed to
opaque strings. -/
abbrev Payload := List (String × String)

/-- The claims set built by `GenerateJWT`: `iat` (Unix seconds) and
`request_body_sha256`. -/
structure JWTClaims where
  iat : Int
  request_body_sha256 : String
deriving DecidableEq, Repr

/-- A signed JWT: its claims plus the identity of the RSA keypair whose
private half produced the signature. -/
structure JWT where
  claims : JWTClaims
  sigKey : Nat
deriving DecidableEq, Repr

/-- The freshness window, `5 * time.Minute`, in seconds. -/
def fiveMinutes : Int := 300

/-- `PushNotificationSenderAuth.GenerateJWT`: digests the payload, sets
`iat` to the current time and signs with the active private key. -/
def generateJWT (digest : Payload → String) (privKey : Nat) (now : Int)
    (data : Payload) : JWT :=
  { claims := { iat := now, request_body_sha256 := digest data }
    sigKey := privKey }

/-- The failure modes of `VerifyPushNotification`, in the order the Go
code checks them: bad/missing signature, stale `iat`, digest mismatch. -/
inductive VerifyError where
  | unauthorized
  | expired
  | digestMismatch
deriving DecidableEq, Repr

/-- `PushNotificationReceiverAuth.VerifyPushNotification` (header
plumbing aside): `jwt.Parse` against the trusted public key, then
`time.Since(iat) > 5*time.Minute`, then the digest of the received body
against the `request_body_sha256` claim. -/
def verifyPushNotification (digest : Payload → String) (pubKey : Nat)
    (now : Int) (token : JWT) (body : Payload) : Except VerifyError Unit :=
  if token.sigKey ≠ pubKey then .error .unauthorized
  else if fiveMinutes < now - token.claims.iat then .error .expired
  else if digest body ≠ token.claims.request_body_sha256 then
    .error .digestMismatch
  else .ok ()

/-- `PushNotificationReceiverAuth.VerifyToken`: signature and freshness
only — the request body digest claim is never compared to anything. -/
def verifyToken (pubKey : Nat) (now : Int) (token : JWT) :
    Except String Unit :=
  if token.sigKey ≠ pubKey then .error "invalid signature"
  else if fiveMinutes < now - token.claims.iat then .error "token expired"
  else .ok ()

/-! ## Push notification listener (pkg/cli/push_notification_listener.go) -/

/-- The HTTP statuses the listener handlers produce. -/
inductive HttpStatus where
  | ok200
  | badRequest400
  | unauthorized401
  | methodNotAllowed405
deriving DecidableEq, Repr

/-- `PushNotificationListener.handleNotification`: POST only; Bearer
token required (`auth = none` models a missing/ill-formed Authorization
header); the token goes through `VerifyToken`; the body is only
JSON-decoded (`body = none` models a decode failure) — its digest is
never compared against the token's `request_body_sha256` claim. -/
def handleNotification (pubKey : Nat) (now : Int) (method : String)
    (auth : Option JWT) (body : Option Payload) : HttpStatus :=
  if method ≠ "POST" then .methodNotAllowed405
  else
    match auth with
    | none => .unauthorized401
    | some token =>
        match verifyToken pubKey now token with
        | .error _ => .unauthorized401
        | .ok _ =>
            match body with
            | none => .badRequest400
            | some _ => .ok200

/-! ## URL validation challenge -/

/-- A GET request as the challenge endpoint sees it: headers and query
parameters as association lists. -/
structure HttpGetRequest where
  method : String
  headers : List (String × String)
  query : List (String × String)
deriving DecidableEq, Repr

/-- Go `http.Header.Get`: first value for the key, `""` when absent. -/
def headerGet (headers : List (String × String)) (key : String) : String :=
  match headers.find? (fun kv => kv.1 = key) with
  | some kv => kv.2
  | none => ""

/-- `PushNotificationListener.handleValidationCheck`: GET only; reads the
`Validation-Token` request header; 400 when it is empty, otherwise echoes
it back with status 200.  `http.Error` appends a newline to its message.
Returns (status code, response body). -/
def handleValidationCheck (req : HttpGetRequest) : Nat × String :=
  if req.method ≠ "GET" then (405, "Method not allowed\n")
  else
    let token := headerGet req.headers "Validation-Token"
    if token = "" then (400, "Validation token not found\n")
    else (200, token)

/-- The GET request `VerifyPushNotificationURL` issues: the nonce travels
as the `validationToken` query parameter and no headers are set
(`http.Get(url + "?validationToken=" + nonce)`). -/
def challengeRequest (nonce : String) : HttpGetRequest :=
  { method := "GET", headers := [], query := [("validationToken", nonce)] }

/-- `PushNotificationSenderAuth.VerifyPushNotificationURL`: issues the
challenge request with a fresh nonce and returns whether the response
body equals the nonce byte for byte.  `respond` models the transport:
`none` is a transport error (`http.Get` returned an error), `some` is the
target's (status, body); the Go code ignores the status code. -/
def verifyPushNotificationURL (respond : HttpGetRequest → Option (Nat × String))
    (nonce : String) : Bool :=
  match respond (challengeRequest nonce) with
  | none => false
  | some resp => resp.2 = nonce

/-! ## Event multiplexer (SSE subscribers of InMemoryTaskManager)

The Go field `taskSSESubscribers map[string][]chan interface{}` maps a
task id to the list of registered subscriber channels.  A channel is
modelled by its identity (`chId`, Go channel identity under `==`) plus
the list of events sent into it, in send order — `subscriber <- ev`
becomes appending `ev` to `delivered`. -/

/-- Go struct `TaskStatusUpdateEvent` (`Metadata` omitted). -/
structure TaskStatusUpdateEvent where
  id : String
  status : TaskStatus
  final : Bool
deriving DecidableEq, Repr

/-- Go struct `TaskArtifactUpdateEvent` (`Metadata` omitted). -/
structure TaskArtifactUpdateEvent where
  id : String
  artifact : Artifact
deriving DecidableEq, Repr

/-- Go struct `JSONRPCError` (`Data` omitted). -/
structure JSONRPCError where
  code : Int
  message : String
deriving DecidableEq, Repr

/-- The dynamic values sent through an SSE queue (`interface{}` in Go):
`dequeueEventsForSSE` type-switches on exactly these three cases. -/
inductive SSEEvent where
  | statusUpdate (e : TaskStatusUpdateEvent)
  | artifactUpdate (e : TaskArtifactUpdateEvent)
  | rpcError (e : JSONRPCError)
deriving DecidableEq, Repr

/-- One registered SSE channel: its identity and the events delivered
into it so far, in order. -/
structure Subscriber where
  chId : Nat
  delivered : List SSEEvent
deriving DecidableEq, Repr

/-- The `taskSSESubscribers` registry. -/
abbrev Registry := List (String × List Subscriber)

/-- Go map read `tm.taskSSESubscribers[taskID]` with its `exists` flag. -/
def lookupSubs (reg : Registry) (taskID : String) :
    Option (List Subscriber) :=
  match reg.find? (fun kv => kv.1 = taskID) with
  | some kv => some kv.2
  | none => none

/-- Go map write `tm.taskSSESubscribers[taskID] = subs`. -/
def setSubs (reg : Registry) (taskID : String) (subs : List Subscriber) :
    Registry :=
  match reg with
  | [] => [(taskID, subs)]
  | kv :: rest =>
      if kv.1 = taskID then (taskID, subs) :: rest
      else kv :: setSubs rest taskID subs

/-- `InMemoryTaskManager.enqueueEventsForSSE`: when the task has a
subscriber list, sends the event to every registered channel (the loop
`for _, subscriber := range subscribers { subscriber <- event }`);
when the task id is absent from the registry, does nothing. -/
def enqueueEventsForSSE (reg : Registry) (taskID : String)
    (ev : SSEEvent) : Registry :=
  match lookupSubs reg taskID with
  | none => reg
  | some subs =>
      setSubs reg taskID
        (subs.map fun sub => { sub with delivered := sub.delivered ++ [ev] })

/-- A finite publish sequence: `enqueueEventsForSSE` once per event, in
order. -/
def publishAll (reg : Registry) (taskID : String)
    (events : List SSEEvent) : Registry :=
  events.foldl (fun r ev => enqueueEventsForSSE r taskID ev) reg

/-- `InMemoryTaskManager.setupSSEConsumer`: on an unknown task id, fails
for a resubscription, else initialises an empty subscriber list; then
registers a fresh channel (identified by `newChId`). -/
def setupSSEConsumer (reg : Registry) (taskID : String)
    (isResubscribe : Bool) (newChId : Nat) :
    Except String (Nat × Registry) :=
  match lookupSubs reg taskID with
  | none =>
      if isResubscribe then .error "task not found for resubscription"
      else .ok (newChId, setSubs reg taskID [{ chId := newChId, delivered := [] }])
  | some subs =>
      .ok (newChId, setSubs reg taskID (subs ++ [{ chId := newChId, delivered := [] }]))

/-- Go struct `SendTaskStreamingResponse`, with the `interface{}` request
id kept as a string. -/
structure SendTaskStreamingResponse where
  id : Option String
  result : Option SSEEvent
  error : Option JSONRPCError
deriving DecidableEq, Repr

/-- The response `dequeueEventsForSSE` forwards for one dequeued event:
an error event fills `Error`, anything else fills `Result`. -/
def streamRespOf (requestID : String) (ev : SSEEvent) :
    SendTaskStreamingResponse :=
  match ev with
  | .rpcError err => { id := some requestID, result := none, error := some err }
  | _ => { id := some requestID, result := some ev, error := none }

/-- Whether this event makes the `dequeueEventsForSSE` loop break after
forwarding it: a `JSONRPCError`, or a status update with `Final=true`. -/
def stopsStream : SSEEvent → Bool
  | .rpcError _ => true
  | .statusUpdate se => se.final
  | .artifactUpdate _ => false

/-- The forwarding loop of `dequeueEventsForSSE`, applied to the sequence
of values sent into `sseEventQueue` (list end = channel closed): each
event is forwarded on `responseChan`; an error event or a final status
update is forwarded and then the loop breaks, after which `responseChan`
is closed — nothing past the first stopping event is ever delivered. -/
def dequeueLoop (requestID : String) : List SSEEvent →
    List SendTaskStreamingResponse
  | [] => []
  | ev :: rest =>
      if stopsStream ev then [streamRespOf requestID ev]
      else streamRespOf requestID ev :: dequeueLoop requestID rest

/-- The deferred cleanup of `dequeueEventsForSSE`: scans the task's
subscriber list and removes the first channel equal to `sseEventQueue`,
breaking after the first match. -/
def removeSubscriber (subs : List Subscriber) (chId : Nat) :
    List Subscriber :=
  match subs with
  | [] => []
  | sub :: rest =>
      if sub.chId = chId then rest else sub :: removeSubscriber rest chId

/-- `InMemoryTaskManager.dequeueEventsForSSE` as a whole: the responses
forwarded for the incoming events, and the registry after the deferred
removal of this subscriber's channel runs (exactly once, when the loop
ends). -/
def dequeueEventsForSSE (reg : Registry) (requestID : String)
    (taskID : String) (chId : Nat) (incoming : List SSEEvent) :
    List SendTaskStreamingResponse × Registry :=
  (dequeueLoop requestID incoming,
   match lookupSubs reg taskID with
   | none => reg
   | some subs => setSubs reg taskID (removeSubscriber subs chId))

/-! ## Concrete values used by witnesses and counterexamples -/

/-- A sample user message. -/
def msgA : Message := { role := "user", parts := ["hello"] }

/-- A sample agent message. -/
def msgB : Message := { role := "agent", parts := ["reply"] }

/-- A further sample user message. -/
def msgC : Message := { role := "user", parts := ["more"] }

/-- A status in the terminal state `completed`. -/
def completedStatus : TaskStatus :=
  { state := .completed, message := none, timestamp := "2025-01-01T00:00:00Z" }

/-- A status in the non-terminal state `working`, carrying no message. -/
def workingStatus : TaskStatus :=
  { state := .working, message := none, timestamp := "2025-01-01T00:01:00Z" }

/-- A `working` status that carries a message. -/
def workingStatusMsg : TaskStatus :=
  { state := .working, message := some msgB, timestamp := "2025-01-01T00:02:00Z" }

/-- A sample artifact. -/
def artX : Artifact :=
  { name := some "out", description := none, parts := ["chunk"], index := 0,
    append := none, lastChunk := none }

/-- A task already in the terminal state `completed`. -/
def doneTask : Task :=
  { id := "t1", sessionId := some "s1", status := completedStatus,
    artifacts := none, history := [msgA] }

/-- A store holding only the completed task. -/
def storeDone : TaskStore := [("t1", doneTask)]

/-- The completed task after the status-replacing update of claim C2's
counterexample. -/
def doneTaskAfter : Task := { doneTask with status := workingStatus }

/-- A freshly submitted task. -/
def subTask : Task :=
  { id := "t1", sessionId := some "s1",
    status := { state := .submitted, message := none,
                timestamp := "2025-01-01T00:00:00Z" },
    artifacts := none, history := [msgA] }

/-- A store holding only the submitted task. -/
def storeSub : TaskStore := [("t1", subTask)]

/-- A task with a three-message history. -/
def histTask : Task :=
  { id := "t1", sessionId := some "s1",
    status := { state := .working, message := none,
                timestamp := "2025-01-01T00:00:00Z" },
    artifacts := none, history := [msgA, msgB, msgC] }

/-- A store holding only the three-message task. -/
def storeHist : TaskStore := [("t1", histTask)]

/-- Fresh create parameters for the upsert witness. -/
def pNew : TaskSendParams := { id := "t1", sessionId := "s1", message := msgA }

/-- A concrete stand-in for the abstract SHA-256 digest function. -/
def digestEx : Payload → String := fun p => if p = [] then "d0" else "d1"

/-- A concrete sample JWT, signed by keypair 7, whose digest claim
matches no payload of `digestEx`. -/
def tokenW : JWT :=
  { claims := { iat := 0, request_body_sha256 := "sig-digest" }, sigKey := 7 }

/-- SSE subscriber with channel identity 1 and nothing delivered yet. -/
def subW1 : Subscriber := { chId := 1, delivered := [] }

/-- SSE subscriber with channel identity 2 and nothing delivered yet. -/
def subW2 : Subscriber := { chId := 2, delivered := [] }

/-- A registry with two subscribers on task t1. -/
def regW : Registry := [("t1", [subW1, subW2])]

/-- A non-final status update event. -/
def evWork : SSEEvent :=
  .statusUpdate { id := "t1", status := workingStatus, final := false }

/-- A final status update. -/
def finalSE : TaskStatusUpdateEvent :=
  { id := "t1", status := completedStatus, final := true }

/-- The final status update as an SSE event. -/
def evFinal : SSEEvent := .statusUpdate finalSE

/-! ## Helper lemmas -/

theorem lookupTask_setTask_self (s : TaskStore) (id : String) (t : Task) :
    lookupTask (setTask s id t) id = some t := by
  induction s with
  | nil => simp [setTask, lookupTask]
  | cons kv rest ih =>
      by_cases h : kv.1 = id
      · simp [setTask, h, lookupTask, List.find?]
      · simpa [setTask, h, lookupTask, List.find?] using ih

theorem lookupSubs_setSubs_self (reg : Registry) (taskID : String)
    (subs : List Subscriber) :
    lookupSubs (setSubs reg taskID subs) taskID = some subs := by
  induction reg with
  | nil => simp [setSubs, lookupSubs]
  | cons kv rest ih =>
      by_cases h : kv.1 = taskID
      · simp [setSubs, h, lookupSubs, List.find?]
      · simpa [setSubs, h, lookupSubs, List.find?] using ih

/-- Full characterisation of `updateStore` on a task that exists: shared
by several claim proofs. -/
theorem updateStore_found (s : TaskStore) (taskID : String) (t : Task)
    (status : TaskStatus) (arts : Option (List Artifact))
    (hlook : lookupTask s taskID = some t) :
    ∃ t', updateStore s taskID status arts = (.ok t', setTask s taskID t')
      ∧ t'.status = status
      ∧ t'.history = t.history ++ (match status.message with
          | some m => [m]
          | none => [])
      ∧ t'.artifacts = (match arts with
          | some as => some (t.artifacts.getD [] ++ as)
          | none => t.artifacts)
      ∧ t'.id = t.id ∧ t'.sessionId = t.sessionId := by
  cases hm : status.message with
  | none =>
      cases arts with
      | none =>
          refine ⟨{ t with status := status }, ?_, rfl, by simp, rfl, rfl, rfl⟩
          simp [updateStore, hlook, hm]
      | some as =>
          refine ⟨{ t with
                      status := status
                      artifacts := some (t.artifacts.getD [] ++ as) },
                  ?_, rfl, by simp, rfl, rfl, rfl⟩
          simp [updateStore, hlook, hm]
  | some m =>
      cases arts with
      | none =>
          refine ⟨{ t with
                      status := status
                      history := t.history ++ [m] },
                  ?_, rfl, rfl, rfl, rfl, rfl⟩
          simp [updateStore, hlook, hm]
      | some as =>
          refine ⟨{ t with
                      status := status
                      history := t.history ++ [m]
                      artifacts := some (t.artifacts.getD [] ++ as) },
                  ?_, rfl, rfl, rfl, rfl, rfl⟩
          simp [updateStore, hlook, hm]

/-- Delivering one event and then a sequence is delivering the whole
sequence at once, subscriber by subscriber. -/
theorem map_delivered_comp (e : SSEEvent) (es : List SSEEvent)
    (l : List Subscriber) :
    (l.map fun sub => { sub with delivered := sub.delivered ++ [e] }).map
        (fun sub => { sub with delivered := sub.delivered ++ es })
      = l.map fun sub => { sub with delivered := sub.delivered ++ e :: es } := by
  induction l with
  | nil => rfl
  | cons x xs ihx => simp [ihx, List.append_assoc]

/-- The forwarding loop delivers every event up to and including the
first stopping event, and nothing after it. -/
theorem dequeueLoop_stop (requestID : String) (pre post : List SSEEvent)
    (ev : SSEEvent)
    (hpre : ∀ e ∈ pre, stopsStream e = false)
    (hev : stopsStream ev = true) :
    dequeueLoop requestID (pre ++ ev :: post)
      = pre.map (streamRespOf requestID) ++ [streamRespOf requestID ev] := by
  induction pre with
  | nil => simp [dequeueLoop, hev]
  | cons e es ih =>
      have he : stopsStream e = false := hpre e (by simp)
      simp [dequeueLoop, he, ih (fun x hx => hpre x (by simp [hx]))]

/-- The deferred cleanup removes exactly the first occurrence of the
subscriber's channel. -/
theorem removeSubscriber_first (a b : List Subscriber) (sub : Subscriber)
    (chId : Nat)
    (hsub : sub.chId = chId)
    (ha : ∀ x ∈ a, x.chId ≠ chId) :
    removeSubscriber (a ++ sub :: b) chId = a ++ b := by
  induction a with
  | nil => simp [removeSubscriber, hsub]
  | cons x xs ih =>
      have hx : x.chId ≠ chId := ha x (by simp)
      simp [removeSubscriber, hx, ih (fun y hy => ha y (by simp [hy]))]

/-! ## Claim theorems -/

/-- Claim C1: for every payload and a verifier trusting the signer's
public key, verifying the assertion produced by GenerateJWT over that
payload against the same payload succeeds within the 5-minute freshness
window; against a payload whose digest differs (any actual mutation,
SHA-256 collisions aside) it fails with a digest mismatch; and after the
freshness window it fails as expired. -/
theorem sign_then_verify_roundtrip (digest : Payload → String) (key : Nat)
    (tSign tVerify tLate : Int) (payload mutated : Payload)
    (hnn : 0 ≤ tVerify - tSign)
    (hfresh : tVerify - tSign ≤ fiveMinutes)
    (hmut : digest mutated ≠ digest payload)
    (hlate : fiveMinutes < tLate - tSign) :
    verifyPushNotification digest key tVerify
        (generateJWT digest key tSign payload) payload = .ok ()
  ∧ verifyPushNotification digest key tVerify
        (generateJWT digest key tSign payload) mutated = .error .digestMismatch
  ∧ verifyPushNotification digest key tLate
        (generateJWT digest key tSign payload) payload = .error .expired := by
  have h1 : ¬ (fiveMinutes < tVerify - tSign) := not_lt.mpr hfresh
  refine ⟨?_, ?_, ?_⟩
  · simp [verifyPushNotification, generateJWT, h1]
  · simp [verifyPushNotification, generateJWT, h1, hmut]
  · simp [verifyPushNotification, generateJWT, hlate]

/-- Witness for C1 at concrete inputs. -/
theorem sign_then_verify_roundtrip_witness :
    verifyPushNotification digestEx 7 10
        (generateJWT digestEx 7 0 [("k", "v")]) [("k", "v")] = .ok ()
  ∧ verifyPushNotification digestEx 7 10
        (generateJWT digestEx 7 0 [("k", "v")]) [] = .error .digestMismatch
  ∧ verifyPushNotification digestEx 7 400
        (generateJWT digestEx 7 0 [("k", "v")]) [("k", "v")] = .error .expired :=
  sign_then_verify_roundtrip digestEx 7 0 10 400 [("k", "v")] []
    (by decide) (by decide) (by decide) (by decide)

/-- Claim C2 counterexample: the store holds a task in the terminal
state completed, yet a status-update attempt to working succeeds and
changes the stored state — it does not fail. -/
theorem updateStore_terminal_cex :
    doneTask.status.state = TaskState.completed
  ∧ updateStore storeDone "t1" workingStatus none
      = (.ok doneTaskAfter, [("t1", doneTaskAfter)])
  ∧ doneTaskAfter.status.state = TaskState.working :=
  ⟨rfl, rfl, rfl⟩

/-- Claim C2 (amended): terminality is not enforced — for every stored
task in a terminal state, a subsequent status-update attempt succeeds
and replaces the stored state with the new status's state. -/
theorem updateStore_terminal_not_enforced (s : TaskStore) (taskID : String)
    (t : Task) (status : TaskStatus) (arts : Option (List Artifact))
    (hlook : lookupTask s taskID = some t)
    (hterm : t.status.state = TaskState.completed
        ∨ t.status.state = TaskState.canceled
        ∨ t.status.state = TaskState.failed) :
    ∃ t', updateStore s taskID status arts = (.ok t', setTask s taskID t')
      ∧ t'.status.state = status.state
      ∧ lookupTask (updateStore s taskID status arts).2 taskID = some t' := by
  obtain ⟨t', h1, h2, -, -, -, -⟩ := updateStore_found s taskID t status arts hlook
  refine ⟨t', h1, by rw [h2], ?_⟩
  rw [h1]
  exact lookupTask_setTask_self s taskID t'

/-- Witness for the amended C2 at concrete inputs. -/
theorem updateStore_terminal_not_enforced_witness :
    ∃ t', updateStore storeDone "t1" workingStatus none
        = (.ok t', setTask storeDone "t1" t')
      ∧ t'.status.state = workingStatus.state
      ∧ lookupTask (updateStore storeDone "t1" workingStatus none).2 "t1"
          = some t' :=
  updateStore_terminal_not_enforced storeDone "t1" doneTask workingStatus none
    rfl (Or.inl rfl)

/-- Claim C3: the first upsert on an identifier creates the task with
state submitted and one-element history; every later upsert on the same
identifier appends its message to the history and leaves the stored
status unchanged. -/
theorem upsertTask_create_once (s : TaskStore) (now : String)
    (p : TaskSendParams) :
    (lookupTask s p.id = none →
        (upsertTask s now p).1.status.state = TaskState.submitted
      ∧ (upsertTask s now p).1.history = [p.message]
      ∧ lookupTask (upsertTask s now p).2 p.id = some (upsertTask s now p).1)
  ∧ (∀ t, lookupTask s p.id = some t →
        (upsertTask s now p).1.history = t.history ++ [p.message]
      ∧ (upsertTask s now p).1.status = t.status
      ∧ lookupTask (upsertTask s now p).2 p.id = some (upsertTask s now p).1) := by
  constructor
  · intro h
    simp [upsertTask, h, lookupTask_setTask_self]
  · intro t h
    simp [upsertTask, h, lookupTask_setTask_self]

/-- Witness for C3: a create on the empty store and an append on a store
already holding the task. -/
theorem upsertTask_create_once_witness :
    ((upsertTask [] "ts" pNew).1.status.state = TaskState.submitted
      ∧ (upsertTask [] "ts" pNew).1.history = [pNew.message]
      ∧ lookupTask (upsertTask [] "ts" pNew).2 pNew.id
          = some (upsertTask [] "ts" pNew).1)
  ∧ ((upsertTask storeSub "ts" pNew).1.history = subTask.history ++ [pNew.message]
      ∧ (upsertTask storeSub "ts" pNew).1.status = subTask.status
      ∧ lookupTask (upsertTask storeSub "ts" pNew).2 pNew.id
          = some (upsertTask storeSub "ts" pNew).1) :=
  ⟨(upsertTask_create_once [] "ts" pNew).1 rfl,
   (upsertTask_create_once storeSub "ts" pNew).2 subTask rfl⟩

/-- Claim C4: for an existing task, updateStore replaces the status
wholesale, appends the status message (when present) to the history, and
appends the supplied artifacts; for an absent identifier it fails with
the not-found error and leaves the store unchanged. -/
theorem updateStore_spec (s : TaskStore) (taskID : String)
    (status : TaskStatus) (arts : Option (List Artifact)) :
    (lookupTask s taskID = none →
        updateStore s taskID status arts = (.error "task not found", s))
  ∧ (∀ t, lookupTask s taskID = some t →
      ∃ t', updateStore s taskID status arts = (.ok t', setTask s taskID t')
        ∧ t'.status = status
        ∧ t'.history = t.history ++ (match status.message with
            | some m => [m]
            | none => [])
        ∧ t'.artifacts = (match arts with
            | some as => some (t.artifacts.getD [] ++ as)
            | none => t.artifacts)
        ∧ t'.id = t.id ∧ t'.sessionId = t.sessionId) := by
  constructor
  · intro h
    simp [updateStore, h]
  · intro t h
    exact updateStore_found s taskID t status arts h

/-- Witness for C4: a miss on the empty store and an update carrying a
message and one artifact on a store holding the task. -/
theorem updateStore_spec_witness :
    updateStore [] "t9" workingStatus none = (.error "task not found", [])
  ∧ ∃ t', updateStore storeDone "t1" workingStatusMsg (some [artX])
        = (.ok t', setTask storeDone "t1" t')
      ∧ t'.status = workingStatusMsg
      ∧ t'.history = doneTask.history ++ [msgB]
      ∧ t'.artifacts = some (doneTask.artifacts.getD [] ++ [artX])
      ∧ t'.id = doneTask.id ∧ t'.sessionId = doneTask.sessionId :=
  ⟨(updateStore_spec [] "t9" workingStatus none).1 rfl,
   (updateStore_spec storeDone "t1" workingStatusMsg (some [artX])).2 doneTask rfl⟩

/-- Claim C5: for an existing task and positive limit N, the snapshot's
history is exactly the min(N, len) most recent stored entries in stored
order; with a nil limit the snapshot history is empty; the stored state
is returned unchanged (the store component of the result is the input
store). -/
theorem onGetTask_spec (s : TaskStore) (id : String) (t : Task)
    (hlook : lookupTask s id = some t) :
    (∀ n : Int, 0 < n →
        ∃ snap,
          onGetTask s { id := id, historyLength := some n } = (some snap, s)
        ∧ snap.history
            = t.history.drop (t.history.length - min n.toNat t.history.length)
        ∧ snap.history.length = min n.toNat t.history.length
        ∧ snap.status = t.status)
  ∧ ∃ snap, onGetTask s { id := id, historyLength := none } = (some snap, s)
      ∧ snap.history = [] := by
  constructor
  · intro n hn
    by_cases hlt : n < (t.history.length : Int)
    · have hmin : min n.toNat t.history.length = n.toNat := by omega
      refine ⟨{ t with history := t.history.drop (t.history.length - n.toNat) },
              ?_, ?_, ?_, rfl⟩
      · simp [onGetTask, hlook, appendTaskHistory, hn, hlt]
      · show t.history.drop (t.history.length - n.toNat)
            = t.history.drop (t.history.length - min n.toNat t.history.length)
        rw [hmin]
      · show (t.history.drop (t.history.length - n.toNat)).length
            = min n.toNat t.history.length
        rw [List.length_drop, hmin]
        omega
    · have hmin : min n.toNat t.history.length = t.history.length := by omega
      refine ⟨t, ?_, ?_, ?_, rfl⟩
      · simp [onGetTask, hlook, appendTaskHistory, hn, hlt]
      · rw [hmin, Nat.sub_self, List.drop_zero]
      · rw [hmin]
  · refine ⟨{ t with history := [] }, ?_, rfl⟩
    simp [onGetTask, hlook, appendTaskHistory]

/-- Witness for C5: a three-entry history read with limit 2 and with a
nil limit. -/
theorem onGetTask_spec_witness :
    (∃ snap,
        onGetTask storeHist { id := "t1", historyLength := some 2 }
          = (some snap, storeHist)
      ∧ snap.history = histTask.history.drop
          (histTask.history.length - min (Int.toNat 2) histTask.history.length)
      ∧ snap.history.length = min (Int.toNat 2) histTask.history.length
      ∧ snap.status = histTask.status)
  ∧ ∃ snap, onGetTask storeHist { id := "t1", historyLength := none }
        = (some snap, storeHist)
      ∧ snap.history = [] :=
  ⟨(onGetTask_spec storeHist "t1" histTask rfl).1 2 (by decide),
   (onGetTask_spec storeHist "t1" histTask rfl).2⟩

/-- Claim C6: publishing the finite sequence e1..en to a task delivers
exactly that sequence, in publish order, appended to every subscriber
registered for the task throughout — so all such subscribers observe the
identical sequence. -/
theorem publishAll_order (reg : Registry) (taskID : String)
    (subs : List Subscriber) (events : List SSEEvent)
    (hsubs : lookupSubs reg taskID = some subs) :
    lookupSubs (publishAll reg taskID events) taskID
      = some (subs.map fun sub =>
          { sub with delivered := sub.delivered ++ events }) := by
  induction events generalizing reg subs with
  | nil =>
      rw [show publishAll reg taskID [] = reg from rfl, hsubs]
      have hmap : ∀ l : List Subscriber,
          (l.map fun sub => { sub with delivered := sub.delivered ++ [] }) = l := by
        intro l
        induction l with
        | nil => rfl
        | cons x xs ihx => simp [ihx]
      rw [hmap]
  | cons e es ih =>
      have step : enqueueEventsForSSE reg taskID e
          = setSubs reg taskID
              (subs.map fun sub => { sub with delivered := sub.delivered ++ [e] }) := by
        simp [enqueueEventsForSSE, hsubs]
      have hsubs' : lookupSubs (enqueueEventsForSSE reg taskID e) taskID
          = some (subs.map fun sub => { sub with delivered := sub.delivered ++ [e] }) := by
        rw [step]
        exact lookupSubs_setSubs_self ..
      have hrec := ih _ _ hsubs'
      rw [show publishAll reg taskID (e :: es)
            = publishAll (enqueueEventsForSSE reg taskID e) taskID es from rfl,
          hrec, map_delivered_comp]

/-- Witness for C6: two subscribers on one task observe the same
two-event sequence in publish order. -/
theorem publishAll_order_witness :
    lookupSubs (publishAll regW "t1" [evWork, evFinal]) "t1"
      = some ([subW1, subW2].map fun sub =>
          { sub with delivered := sub.delivered ++ [evWork, evFinal] }) :=
  publishAll_order regW "t1" [subW1, subW2] [evWork, evFinal] rfl

/-- Claim C7: when a final status update is delivered, the subscriber's
response stream carries exactly the events up to and including that one
(its end models the closing of the response channel), nothing sent after
the final event is delivered, and the deferred cleanup removes that
subscriber's channel from the registry exactly once. -/
theorem dequeue_final_closes (reg : Registry) (requestID taskID : String)
    (chId : Nat) (pre post : List SSEEvent) (se : TaskStatusUpdateEvent)
    (a b : List Subscriber) (sub : Subscriber)
    (hpre : ∀ e ∈ pre, stopsStream e = false)
    (hfin : se.final = true)
    (hsubs : lookupSubs reg taskID = some (a ++ sub :: b))
    (hsub : sub.chId = chId)
    (ha : ∀ x ∈ a, x.chId ≠ chId) :
    dequeueEventsForSSE reg requestID taskID chId
        (pre ++ SSEEvent.statusUpdate se :: post)
      = (pre.map (streamRespOf requestID)
           ++ [streamRespOf requestID (SSEEvent.statusUpdate se)],
         setSubs reg taskID (a ++ b)) := by
  have hstop : stopsStream (SSEEvent.statusUpdate se) = true := by
    simp [stopsStream, hfin]
  simp [dequeueEventsForSSE, hsubs,
        dequeueLoop_stop requestID pre post (SSEEvent.statusUpdate se) hpre hstop,
        removeSubscriber_first a b sub chId hsub ha]

/-- Witness for C7: a non-final event, then the final one, then one more
event that is never delivered; subscriber 2 is removed from the registry. -/
theorem dequeue_final_closes_witness :
    dequeueEventsForSSE regW "r1" "t1" 2
        ([evWork] ++ SSEEvent.statusUpdate finalSE :: [evWork])
      = ([evWork].map (streamRespOf "r1")
           ++ [streamRespOf "r1" (SSEEvent.statusUpdate finalSE)],
         setSubs regW "t1" ([subW1] ++ [])) :=
  dequeue_final_closes regW "r1" "t1" 2 [evWork] [evWork] finalSE [subW1] [] subW2
    (by decide) rfl rfl rfl (by decide)

/-- Claim C8: this repository's challenge halves do not interoperate.
The sender puts the nonce in the validationToken query parameter, while
the receiver's validation endpoint reads the Validation-Token request
header, finds it empty and answers 400 with an error body — so
challenging the repository's own endpoint returns false, not true, even
with a perfect transport. -/
theorem challenge_own_endpoint_fails :
    verifyPushNotificationURL (fun r => some (handleValidationCheck r)) "abc123"
      = false
  ∧ handleValidationCheck (challengeRequest "abc123")
      = (400, "Validation token not found\n") :=
  ⟨rfl, rfl⟩

/-- Claim C9 counterexample: the store holds a task in the non-terminal
state submitted, yet OnCancelTask returns an empty result and leaves the
store — and hence the task's state — untouched, instead of returning the
task transitioned to canceled. -/
theorem onCancelTask_cex :
    onCancelTask storeSub { id := "t1" } = (none, storeSub)
  ∧ (lookupTask storeSub "t1").map (fun t => t.status.state)
      = some TaskState.submitted :=
  ⟨rfl, rfl⟩

/-- Claim C9 (amended): OnCancelTask is a no-op — for every store and
every task identifier it returns an empty result and an unchanged store,
whether the task is absent, non-terminal or terminal. -/
theorem onCancelTask_noop (s : TaskStore) (p : TaskIdParams) :
    onCancelTask s p = (none, s) := by
  unfold onCancelTask
  cases lookupTask s p.id <;> rfl

/-- Claim C10: the push-notification listener accepts every POST whose
Bearer token has a valid signature and a fresh iat, even when the digest
of the body actually received differs from the token's
request_body_sha256 claim — the handler never compares them. -/
theorem handleNotification_ignores_digest (digest : Payload → String)
    (pubKey : Nat) (now : Int) (token : JWT) (body : Payload)
    (hsig : token.sigKey = pubKey)
    (hfresh : now - token.claims.iat ≤ fiveMinutes)
    (hmism : digest body ≠ token.claims.request_body_sha256) :
    handleNotification pubKey now "POST" (some token) (some body)
      = .ok200 := by
  have h1 : ¬ (fiveMinutes < now - token.claims.iat) := not_lt.mpr hfresh
  simp [handleNotification, verifyToken, hsig, h1]

/-- Witness for C10: a fresh, correctly signed token whose digest claim
matches no payload is accepted with 200 for an arbitrary body. -/
theorem handleNotification_ignores_digest_witness :
    handleNotification 7 10 "POST" (some tokenW) (some [("k", "v")])
      = .ok200 :=
  handleNotification_ignores_digest digestEx 7 10 tokenW [("k", "v")]
    rfl (by decide) (by decide)

end A2AGo
